import Mathlib

/-!
Shallow embedding of the Crucible of Fate module pool-state core:
`CrucibleState` (src/unnamed/part_003), the panel actions
(src/unnamed/part_001), the move-dice dialog (src/unnamed/part_002),
the socket seeding handlers (src/scripts/socket.js) and the roll
augmentation handlers (src/scripts/rollAugmentation.js).

Machine integers of the source are modelled as `Int` (pool counts may in
principle go negative; the code clamps with `Math.max(0, _)` where it
cares).  The durable settings store is modelled by explicit state
passing: an operation that persists returns the persisted `PoolState`;
an operation that throws before writing returns an error and no state,
meaning the store is untouched.  The injected roster query
`getActivePlayerCount` is a parameter `activePlayerCount` of each
operation, and `game.user.isGM` is a parameter `isGM`.
-/

namespace Crucible

/-- PoolState as read by `CrucibleState.getState` (part_003 lines 11-19):
pool counts, override flag, seeded-player ids, last-seeded timestamp. -/
structure PoolState where
  playerPoolCount : Int
  gmPoolCount : Int
  overrideEnabled : Bool
  seededPlayers : List String
  lastSeededAt : Option String
deriving Repr, DecidableEq

/-- Partial state: the `delta` argument of `CrucibleState.updateState`.
A `none` field is absent from the JS object literal. -/
structure Delta where
  playerPoolCount : Option Int := none
  gmPoolCount : Option Int := none
  overrideEnabled : Option Bool := none
  seededPlayers : Option (List String) := none
  lastSeededAt : Option (Option String) := none
deriving Repr, DecidableEq

/-- Spread merge of the delta onto the current state:
the JS object spread in part_003 line 32. -/
def Delta.apply (d : Delta) (s : PoolState) : PoolState where
  playerPoolCount := d.playerPoolCount.getD s.playerPoolCount
  gmPoolCount := d.gmPoolCount.getD s.gmPoolCount
  overrideEnabled := d.overrideEnabled.getD s.overrideEnabled
  seededPlayers := d.seededPlayers.getD s.seededPlayers
  lastSeededAt := d.lastSeededAt.getD s.lastSeededAt

/-- Error kinds raised by the source, one constructor per distinct throw
or warning path.  The spec groups `seedRange`, `moveInvalidAmount` and
`moveInsufficientDice` under its `ValidationError`, `augAlreadyAugmented`
under `AlreadyProcessedError`, and `augInsufficientDice` under
`InsufficientDiceError`. -/
inductive CrucibleError where
  | authorityError
  | gmCannotSubmit
  | seedRange
  | moveInvalidAmount
  | moveInsufficientDice
  | augInsufficientDice
  | augAlreadyAugmented
  | messageNotFound
  | userNotFound
deriving Repr, DecidableEq

/-- Body of `CrucibleState.updateState` after the GM check
(part_003 lines 31-57): merge the delta, then, when the merged
`overrideEnabled` is false, rebalance the two pool counts toward
`activePlayerCount` (player pool adjusted first, clamped at zero, any
remainder pushed onto the GM pool), and persist the whole record. -/
def applyUpdate (activePlayerCount : Int) (s : PoolState) (d : Delta) : PoolState :=
  let n := d.apply s
  if n.overrideEnabled then n
  else
    let totalDice := n.playerPoolCount + n.gmPoolCount
    if totalDice = activePlayerCount then n
    else
      let difference := activePlayerCount - totalDice
      let p := max 0 (n.playerPoolCount + difference)
      let newTotal := p + n.gmPoolCount
      if newTotal = activePlayerCount then { n with playerPoolCount := p }
      else { n with playerPoolCount := p, gmPoolCount := activePlayerCount - p }

/-- CrucibleState.updateState (part_003 lines 26-60): GM-only; throws
`authorityError` before touching the store for any other caller. -/
def updateState (isGM : Bool) (activePlayerCount : Int) (s : PoolState) (d : Delta) :
    Except CrucibleError PoolState :=
  if isGM then .ok (applyUpdate activePlayerCount s d)
  else .error .authorityError

/-- CrucibleState.enforceInvariant (part_003 lines 84-106): returns the
state untouched when override is on or the totals already match; only
the mismatch branch writes, and it writes through `updateState` (which
performs the GM check). -/
def enforceInvariant (isGM : Bool) (activePlayerCount : Int) (s : PoolState) :
    Except CrucibleError PoolState :=
  if s.overrideEnabled then .ok s
  else
    let totalDice := s.playerPoolCount + s.gmPoolCount
    if totalDice = activePlayerCount then .ok s
    else
      let difference := activePlayerCount - totalDice
      let newPlayerPool := max 0 (s.playerPoolCount + difference)
      let newGmPool := activePlayerCount - newPlayerPool
      updateState isGM activePlayerCount s
        { playerPoolCount := some newPlayerPool, gmPoolCount := some newGmPool }

/-- The pure rebalance computation shared by part_003 lines 39-49 and
lines 93-102: the InvariantEnforcer of the spec.  Returns the new
(player, gm) pair for a given target total. -/
def rebalancePools (p g target : Int) : Int × Int :=
  if p + g = target then (p, g)
  else
    let difference := target - (p + g)
    let p2 := max 0 (p + difference)
    if p2 + g = target then (p2, g) else (p2, target - p2)

/-- CruciblePanel onToggleOverride (part_001 lines 104-112): flip the
override flag through `updateState`. -/
def onToggleOverride (isGM : Bool) (activePlayerCount : Int) (s : PoolState) :
    Except CrucibleError PoolState :=
  updateState isGM activePlayerCount s { overrideEnabled := some (!s.overrideEnabled) }

/-- CruciblePanel onResetPools, confirmed path (part_001 lines 123-130):
write zero to both counts through `updateState`. -/
def onResetPools (isGM : Bool) (activePlayerCount : Int) (s : PoolState) :
    Except CrucibleError PoolState :=
  updateState isGM activePlayerCount s { playerPoolCount := some 0, gmPoolCount := some 0 }

/-- CruciblePanel onRollGmDie (part_001 lines 79-102): if the GM pool is
empty, warn and return with no state change; otherwise move one die from
the GM pool to the player pool through `updateState`.  The chat message
is an external sink and not modelled. -/
def onRollGmDie (isGM : Bool) (activePlayerCount : Int) (s : PoolState) :
    Except CrucibleError PoolState :=
  if s.gmPoolCount < 1 then .ok s
  else
    updateState isGM activePlayerCount s
      { gmPoolCount := some (s.gmPoolCount - 1),
        playerPoolCount := some (s.playerPoolCount + 1) }

/-- Transfer direction of the move-dice dialog (part_002 line 42). -/
inductive MoveDirection where
  | playerToGm
  | gmToPlayer
deriving Repr, DecidableEq

/-- MoveDiceModal onSubmit (part_002 lines 37-82) after form parsing:
reject a non-positive amount, reject an amount exceeding the source
pool (both before any write), else apply the transfer through
`updateState`. -/
def moveDiceSubmit (isGM : Bool) (activePlayerCount : Int) (s : PoolState)
    (direction : MoveDirection) (amount : Int) : Except CrucibleError PoolState :=
  if amount < 1 then .error .moveInvalidAmount
  else
    match direction with
    | .playerToGm =>
      if s.playerPoolCount < amount then .error .moveInsufficientDice
      else
        updateState isGM activePlayerCount s
          { playerPoolCount := some (s.playerPoolCount - amount),
            gmPoolCount := some (s.gmPoolCount + amount) }
    | .gmToPlayer =>
      if s.gmPoolCount < amount then .error .moveInsufficientDice
      else
        updateState isGM activePlayerCount s
          { gmPoolCount := some (s.gmPoolCount - amount),
            playerPoolCount := some (s.playerPoolCount + amount) }

/-- CrucibleSocket.submitSeedResult (socket.js lines 100-117): runs on
the submitting participant.  Rejects a GM caller, rejects a result
outside [1,6], otherwise emits the (userId, result) payload to the GM.
It never touches PoolState. -/
def submitSeedResult (isGM : Bool) (userId : String) (result : Int) :
    Except CrucibleError (String × Int) :=
  if isGM then .error .gmCannotSubmit
  else if result < 1 ∨ result > 6 then .error .seedRange
  else .ok (userId, result)

/-- Outcome of the authoritative seed handler: a throw, the silent
duplicate no-op, or the persisted updated state. -/
inductive SeedOutcome where
  | failure (e : CrucibleError)
  | duplicateIgnored
  | updated (s : PoolState)
deriving Repr, DecidableEq

/-- CrucibleSocket.processSeedResult (socket.js lines 125-168): GM-only;
a user already in `seededPlayers` is ignored silently; otherwise a
result in [1,3] puts `gmPoolCount + 1` in the delta and any other result
puts `playerPoolCount + 1`, the user id is appended to `seededPlayers`,
`lastSeededAt` is set to the current time `now`, and the delta goes
through `updateState`.  Note the handler performs no [1,6] range check
of its own. -/
def processSeedResult (isGM : Bool) (activePlayerCount : Int) (s : PoolState)
    (userId : String) (result : Int) (now : String) : SeedOutcome :=
  if ¬ isGM then .failure .authorityError
  else if userId ∈ s.seededPlayers then .duplicateIgnored
  else
    let d0 : Delta :=
      if 1 ≤ result ∧ result ≤ 3 then { gmPoolCount := some (s.gmPoolCount + 1) }
      else { playerPoolCount := some (s.playerPoolCount + 1) }
    let d : Delta :=
      { d0 with seededPlayers := some (s.seededPlayers ++ [userId]),
                lastSeededAt := some (some now) }
    match updateState true activePlayerCount s d with
    | .error e => .failure e
    | .ok s2 => .updated s2

/-- Abstraction of a chat message holding a roll, as consumed by
`handleAugmentRequest`: the totals of `message.rolls`, and the result of
the `Total: (digits)` regex over the message content (a regex capture of
digits is a natural number). -/
structure Message where
  id : String
  rollTotals : List Int
  contentTotalMatch : Option Nat
deriving Repr, DecidableEq

/-- Original-total extraction (rollAugmentation.js lines 197-206):
first roll total when rolls exist, else the regex capture, else null. -/
def extractOriginalTotal (m : Message) : Option Int :=
  match m.rollTotals with
  | t :: _ => some t
  | [] =>
    match m.contentTotalMatch with
    | some k => some (k : Int)
    | none => none

/-- New-total computation (rollAugmentation.js line 208):
`originalTotal ? originalTotal + result : null` — JS truthiness makes
an original total of 0 produce null as well. -/
def computeNewTotal (originalTotal : Option Int) (dieValue : Int) : Option Int :=
  match originalTotal with
  | none => none
  | some t => if t = 0 then none else some (t + dieValue)

/-- Outcome of the authoritative augmentation handler: a throw, a
warn-and-return rejection (no mutation), or success carrying the die
value, the reported new total, the persisted state and the grown
augmented-message set. -/
inductive AugmentOutcome where
  | failure (e : CrucibleError)
  | rejected (e : CrucibleError)
  | success (dieValue : Int) (newTotal : Option Int) (s : PoolState)
      (augmentedMessages : List String)
deriving Repr, DecidableEq

/-- Whether an augmentation outcome committed a pool mutation. -/
def AugmentOutcome.isSuccess : AugmentOutcome → Bool
  | .success _ _ _ _ => true
  | _ => false

/-- RollAugmentation.handleAugmentRequest (rollAugmentation.js lines
163-238): GM-only; throws when the message or user lookup fails; warns
and returns (no mutation) when the player pool is empty or the message
id is already in `augmentedMessages` — the empty-pool check runs first;
otherwise draws `dieValue`, computes the reported new total, transfers
one die from the player pool to the GM pool through `updateState`, and
adds the message id to `augmentedMessages`.  The message lookup result
`game.messages.get(messageId)` is the parameter `msg`, the user lookup
result is `userFound`, and the externally drawn 1d6 is `dieValue`. -/
def handleAugmentRequest (isGM : Bool) (activePlayerCount : Int) (msg : Option Message)
    (userFound : Bool) (s : PoolState) (augmentedMessages : List String)
    (messageId : String) (dieValue : Int) : AugmentOutcome :=
  if ¬ isGM then .failure .authorityError
  else
    match msg with
    | none => .failure .messageNotFound
    | some m =>
      if ¬ userFound then .failure .userNotFound
      else if s.playerPoolCount < 1 then .rejected .augInsufficientDice
      else if messageId ∈ augmentedMessages then .rejected .augAlreadyAugmented
      else
        let newTotal := computeNewTotal (extractOriginalTotal m) dieValue
        match updateState true activePlayerCount s
          { playerPoolCount := some (s.playerPoolCount - 1),
            gmPoolCount := some (s.gmPoolCount + 1) } with
        | .error e => .failure e
        | .ok s2 => .success dieValue newTotal s2 (messageId :: augmentedMessages)

end Crucible

namespace Crucible

/-! Helper lemmas about `updateState` and `applyUpdate`. -/

lemma updateState_true (a : Int) (s : PoolState) (d : Delta) :
    updateState true a s d = .ok (applyUpdate a s d) := rfl

lemma applyUpdate_sum (a : Int) (s : PoolState) (d : Delta)
    (h : (d.apply s).overrideEnabled = false) :
    (applyUpdate a s d).playerPoolCount + (applyUpdate a s d).gmPoolCount = a := by
  simp only [applyUpdate, h]
  split_ifs <;> simp_all

lemma applyUpdate_override_true (a : Int) (s : PoolState) (d : Delta)
    (h : (d.apply s).overrideEnabled = true) :
    applyUpdate a s d = d.apply s := by
  simp only [applyUpdate, h]
  simp

lemma applyUpdate_balanced (a : Int) (s : PoolState) (d : Delta)
    (h : (d.apply s).playerPoolCount + (d.apply s).gmPoolCount = a) :
    applyUpdate a s d = d.apply s := by
  simp only [applyUpdate]
  split_ifs <;> simp_all

lemma applyUpdate_keep (a : Int) (s : PoolState) (d : Delta)
    (h : (d.apply s).overrideEnabled = true ∨
         (d.apply s).playerPoolCount + (d.apply s).gmPoolCount = a) :
    applyUpdate a s d = d.apply s := by
  rcases h with h | h
  · exact applyUpdate_override_true a s d h
  · exact applyUpdate_balanced a s d h

lemma applyUpdate_fields (a : Int) (s : PoolState) (d : Delta) :
    (applyUpdate a s d).overrideEnabled = (d.apply s).overrideEnabled ∧
    (applyUpdate a s d).seededPlayers = (d.apply s).seededPlayers ∧
    (applyUpdate a s d).lastSeededAt = (d.apply s).lastSeededAt := by
  simp only [applyUpdate]
  split_ifs <;> simp

end Crucible

namespace Crucible

/-- C1: every `updateState` call with the merged override flag false
persists a state whose pool counts sum to the active participant count;
with the merged flag true the merged counts persist as given with no
rebalance; and toggling the flag from true to false through the panel
action immediately rebalances the persisted counts to restore the sum. -/
theorem c1_proposeUpdate_invariant (a : Int) (s s2 : PoolState) (d : Delta) :
    (updateState true a s d = .ok s2 →
      ((d.apply s).overrideEnabled = false →
        s2.playerPoolCount + s2.gmPoolCount = a) ∧
      ((d.apply s).overrideEnabled = true → s2 = d.apply s)) ∧
    (s.overrideEnabled = true → onToggleOverride true a s = .ok s2 →
      s2.playerPoolCount + s2.gmPoolCount = a) := by
  constructor
  · intro hok
    rw [updateState_true] at hok
    injection hok with hok
    subst hok
    exact ⟨fun h => applyUpdate_sum a s d h, fun h => applyUpdate_override_true a s d h⟩
  · intro hov hok
    rw [onToggleOverride, updateState_true] at hok
    injection hok with hok
    subst hok
    apply applyUpdate_sum
    simp [Delta.apply, hov]

/-- Witness for C1 at concrete inputs: a delta `player := 5` against
state `(0, 0, override off)` with 2 active players persists `(2, 0)`;
the same delta with override on persists the merged `(5, 0)` as given;
toggling override off at `(1, 1)` with 2 active players keeps the sum 2. -/
theorem c1_proposeUpdate_invariant_witness :
    ((⟨2, 0, false, [], none⟩ : PoolState).playerPoolCount +
      (⟨2, 0, false, [], none⟩ : PoolState).gmPoolCount = 2) ∧
    ((⟨5, 0, true, [], none⟩ : PoolState) =
      Delta.apply { playerPoolCount := some 5 } ⟨0, 0, true, [], none⟩) ∧
    ((⟨1, 1, false, [], none⟩ : PoolState).playerPoolCount +
      (⟨1, 1, false, [], none⟩ : PoolState).gmPoolCount = 2) := by
  refine ⟨?_, ?_, ?_⟩
  · exact ((c1_proposeUpdate_invariant 2 ⟨0, 0, false, [], none⟩ ⟨2, 0, false, [], none⟩
      { playerPoolCount := some 5 }).1 (by rfl)).1 (by rfl)
  · exact ((c1_proposeUpdate_invariant 2 ⟨0, 0, true, [], none⟩ ⟨5, 0, true, [], none⟩
      { playerPoolCount := some 5 }).1 (by rfl)).2 (by rfl)
  · exact (c1_proposeUpdate_invariant 2 ⟨1, 1, true, [], none⟩ ⟨1, 1, false, [], none⟩
      {}).2 (by rfl) (by rfl)

/-- C2: for non-negative pool counts and target, the rebalance
computation is the identity when the counts already sum to the target;
otherwise it applies the difference to the player count first, clamped
at zero, gives the remainder to the GM count, the results sum exactly to
the target, and neither result is negative. -/
theorem c2_rebalance_contract (p g target : Int)
    (hp : 0 ≤ p) (hg : 0 ≤ g) (ht : 0 ≤ target) :
    (p + g = target → rebalancePools p g target = (p, g)) ∧
    (rebalancePools p g target).1 + (rebalancePools p g target).2 = target ∧
    0 ≤ (rebalancePools p g target).1 ∧
    0 ≤ (rebalancePools p g target).2 ∧
    (rebalancePools p g target).1 = max 0 (p + (target - (p + g))) := by
  simp only [rebalancePools]
  split_ifs with h1 h2
  · exact ⟨fun _ => rfl, by omega, hp, hg, by omega⟩
  · exact ⟨fun h => absurd h h1, by omega, by omega, hg, by omega⟩
  · exact ⟨fun h => absurd h h1, by omega, by omega, by omega, by omega⟩

/-- Witness for C2 at `(p, g, target) = (1, 2, 5)`:
`rebalancePools 1 2 5 = (3, 2)`. -/
theorem c2_rebalance_contract_witness :
    ((1 : Int) + 2 = 5 → rebalancePools 1 2 5 = (1, 2)) ∧
    (rebalancePools 1 2 5).1 + (rebalancePools 1 2 5).2 = 5 ∧
    0 ≤ (rebalancePools 1 2 5).1 ∧
    0 ≤ (rebalancePools 1 2 5).2 ∧
    (rebalancePools 1 2 5).1 = max 0 (1 + (5 - (1 + 2))) :=
  c2_rebalance_contract 1 2 5 (by decide) (by decide) (by decide)

/-- C10: the GM-die-roll action is a pool transfer: with an empty GM
pool it changes nothing; otherwise, whenever the pre-state satisfies the
invariant or override is on, it moves exactly one die from the GM pool
to the player pool, preserving the total. -/
theorem c10_roll_gm_die (a : Int) (s : PoolState) :
    (s.gmPoolCount < 1 → onRollGmDie true a s = .ok s) ∧
    (1 ≤ s.gmPoolCount →
      (s.overrideEnabled = true ∨ s.playerPoolCount + s.gmPoolCount = a) →
      onRollGmDie true a s =
        .ok { s with playerPoolCount := s.playerPoolCount + 1,
                     gmPoolCount := s.gmPoolCount - 1 }) := by
  constructor
  · intro h
    simp [onRollGmDie, h]
  · intro h hkeep
    have hlt : ¬ s.gmPoolCount < 1 := by omega
    have happ : (Delta.apply
        { gmPoolCount := some (s.gmPoolCount - 1),
          playerPoolCount := some (s.playerPoolCount + 1) } s) =
        { s with playerPoolCount := s.playerPoolCount + 1,
                 gmPoolCount := s.gmPoolCount - 1 } := by
      simp [Delta.apply]
    rw [onRollGmDie, if_neg hlt, updateState_true, applyUpdate_keep, happ]
    rw [happ]
    dsimp only
    rcases hkeep with h2 | h2
    · exact Or.inl h2
    · exact Or.inr (by omega)

/-- Witness for C10: from `(0, 0)` an empty GM pool is a no-op; from
`(1, 1)` with 2 active players the transfer yields `(2, 0)`. -/
theorem c10_roll_gm_die_witness :
    onRollGmDie true 2 ⟨0, 0, false, [], none⟩ = .ok ⟨0, 0, false, [], none⟩ ∧
    onRollGmDie true 2 ⟨1, 1, false, [], none⟩ = .ok ⟨2, 0, false, [], none⟩ := by
  constructor
  · exact (c10_roll_gm_die 2 ⟨0, 0, false, [], none⟩).1 (by decide)
  · exact (c10_roll_gm_die 2 ⟨1, 1, false, [], none⟩).2 (by decide) (Or.inr (by decide))

end Crucible

namespace Crucible

/-! Helper lemmas for the seed handler branches. -/

lemma processSeed_gm_branch (a : Int) (s : PoolState) (u now : String) (r : Int)
    (hu : u ∉ s.seededPlayers) (hr : 1 ≤ r ∧ r ≤ 3) :
    processSeedResult true a s u r now =
      .updated (applyUpdate a s
        { gmPoolCount := some (s.gmPoolCount + 1),
          seededPlayers := some (s.seededPlayers ++ [u]),
          lastSeededAt := some (some now) }) := by
  simp only [processSeedResult, not_true_eq_false, if_false, if_neg hu, if_pos hr,
    updateState_true]

lemma processSeed_player_branch (a : Int) (s : PoolState) (u now : String) (r : Int)
    (hu : u ∉ s.seededPlayers) (hr : ¬ (1 ≤ r ∧ r ≤ 3)) :
    processSeedResult true a s u r now =
      .updated (applyUpdate a s
        { playerPoolCount := some (s.playerPoolCount + 1),
          seededPlayers := some (s.seededPlayers ++ [u]),
          lastSeededAt := some (some now) }) := by
  simp only [processSeedResult, not_true_eq_false, if_false, if_neg hu, if_neg hr,
    updateState_true]

/-- C3 counterexample: with 3 active participants, override off and both
pools at zero, the first accepted seed value 2 persists `(2, 1)` — the
rebalance step of `updateState` fires mid-ritual and grows the total by
3, not by 1, contradicting the claim that the pool counts are only
incremented by the assignment rule. -/
theorem c3_seed_rebalance_counterexample :
    processSeedResult true 3 ⟨0, 0, false, [], none⟩ "u1" 2 "t0" =
      .updated ⟨2, 1, false, ["u1"], some "t0"⟩ ∧
    (PoolState.mk 2 1 false ["u1"] (some "t0")).playerPoolCount +
      (PoolState.mk 2 1 false ["u1"] (some "t0")).gmPoolCount ≠ 0 + 0 + 1 := by
  exact ⟨by decide, by decide⟩

/-- C3 amended: an accepted seed submission routes value in [1,3] to
`gmPoolCount + 1` and any other value to `playerPoolCount + 1` in the
delta, with `overrideEnabled` untouched; when override is on the
increment persists exactly (the total grows by one); when override is
off the rebalance step of `updateState` fires and the persisted counts
sum to the active participant count instead. -/
theorem c3_seed_assignment_amended (a : Int) (s : PoolState) (u now : String) (r : Int)
    (hu : u ∉ s.seededPlayers) :
    (s.overrideEnabled = true → 1 ≤ r ∧ r ≤ 3 →
      processSeedResult true a s u r now =
        .updated { s with gmPoolCount := s.gmPoolCount + 1,
                          seededPlayers := s.seededPlayers ++ [u],
                          lastSeededAt := some now }) ∧
    (s.overrideEnabled = true → ¬ (1 ≤ r ∧ r ≤ 3) →
      processSeedResult true a s u r now =
        .updated { s with playerPoolCount := s.playerPoolCount + 1,
                          seededPlayers := s.seededPlayers ++ [u],
                          lastSeededAt := some now }) ∧
    (s.overrideEnabled = false → ∀ s2, processSeedResult true a s u r now = .updated s2 →
      s2.playerPoolCount + s2.gmPoolCount = a ∧
      s2.seededPlayers = s.seededPlayers ++ [u]) := by
  refine ⟨?_, ?_, ?_⟩
  · intro hov hr
    rw [processSeed_gm_branch a s u now r hu hr, applyUpdate_override_true]
    · simp [Delta.apply]
    · simp [Delta.apply, hov]
  · intro hov hr
    rw [processSeed_player_branch a s u now r hu hr, applyUpdate_override_true]
    · simp [Delta.apply]
    · simp [Delta.apply, hov]
  · intro hov s2 heq
    by_cases hr : 1 ≤ r ∧ r ≤ 3
    · rw [processSeed_gm_branch a s u now r hu hr] at heq
      injection heq with heq
      subst heq
      constructor
      · exact applyUpdate_sum a s _ (by simp [Delta.apply, hov])
      · rw [(applyUpdate_fields a s _).2.1]
        simp [Delta.apply]
    · rw [processSeed_player_branch a s u now r hu hr] at heq
      injection heq with heq
      subst heq
      constructor
      · exact applyUpdate_sum a s _ (by simp [Delta.apply, hov])
      · rw [(applyUpdate_fields a s _).2.1]
        simp [Delta.apply]

/-- Witness for C3 amended: with override on, seed value 2 yields
`(0, 1)` and seed value 5 yields `(1, 0)`; with override off and 3
active participants, the persisted state after seed value 2 sums to 3
and records the submitter. -/
theorem c3_seed_assignment_amended_witness :
    processSeedResult true 5 ⟨0, 0, true, [], none⟩ "u1" 2 "t0" =
      .updated ⟨0, 1, true, ["u1"], some "t0"⟩ ∧
    processSeedResult true 5 ⟨0, 0, true, [], none⟩ "u1" 5 "t0" =
      .updated ⟨1, 0, true, ["u1"], some "t0"⟩ ∧
    ((2 : Int) + 1 = 3 ∧ (["u1"] : List String) = [] ++ ["u1"]) := by
  refine ⟨?_, ?_, ?_⟩
  · exact (c3_seed_assignment_amended 5 ⟨0, 0, true, [], none⟩ "u1" "t0" 2
      (by decide)).1 rfl (by decide)
  · exact (c3_seed_assignment_amended 5 ⟨0, 0, true, [], none⟩ "u1" "t0" 5
      (by decide)).2.1 rfl (by decide)
  · exact (c3_seed_assignment_amended 3 ⟨0, 0, false, [], none⟩ "u1" "t0" 2
      (by decide)).2.2 rfl ⟨2, 1, false, ["u1"], some "t0"⟩ (by decide)

/-- C7 counterexample: the authoritative seed handler accepts the
out-of-range value 7 with no `ValidationError` and mutates the pool
(player pool incremented) — range validation is not performed at the
authoritative process. -/
theorem c7_seed_validation_counterexample :
    processSeedResult true 1 ⟨0, 0, true, [], none⟩ "u1" 7 "t0" =
      .updated ⟨1, 0, true, ["u1"], some "t0"⟩ ∧
    ¬ ((1 : Int) ≤ 7 ∧ (7 : Int) ≤ 6) := by
  exact ⟨by decide, by decide⟩

/-- C7 amended: the [1,6] range validation lives in `submitSeedResult`
at the submitting (non-authoritative) participant, which fails with the
range `ValidationError` before emitting anything (PoolState untouched);
the authoritative `processSeedResult` performs no range validation and
routes any accepted value outside [1,3] to a player-pool increment. -/
theorem c7_seed_validation_amended (r : Int) (u : String) :
    ((r < 1 ∨ r > 6) → submitSeedResult false u r = .error .seedRange) ∧
    (∀ (a : Int) (s : PoolState) (now : String),
      u ∉ s.seededPlayers → s.overrideEnabled = true → ¬ (1 ≤ r ∧ r ≤ 3) →
      processSeedResult true a s u r now =
        .updated { s with playerPoolCount := s.playerPoolCount + 1,
                          seededPlayers := s.seededPlayers ++ [u],
                          lastSeededAt := some now }) := by
  constructor
  · intro h
    simp [submitSeedResult, h]
  · intro a s now hu hov hr
    rw [processSeed_player_branch a s u now r hu hr, applyUpdate_override_true]
    · simp [Delta.apply]
    · simp [Delta.apply, hov]

/-- Witness for C7 amended: `submitSeedResult` rejects the value 9; the
authoritative handler accepts 9 and increments the player pool. -/
theorem c7_seed_validation_amended_witness :
    submitSeedResult false "u1" 9 = .error .seedRange ∧
    processSeedResult true 1 ⟨0, 0, true, [], none⟩ "u1" 9 "t0" =
      .updated ⟨1, 0, true, ["u1"], some "t0"⟩ := by
  constructor
  · exact (c7_seed_validation_amended 9 "u1").1 (by decide)
  · exact (c7_seed_validation_amended 9 "u1").2 1 ⟨0, 0, true, [], none⟩ "t0"
      (by decide) rfl (by decide)

end Crucible

namespace Crucible

/-- C8 counterexample: with override off and 3 active participants,
resetting from `(1, 2)` persists `(3, 0)`, not `(0, 0)` — the zero write
goes through `updateState` and is rebalanced like any other mutation,
so it is not an override-equivalent write. -/
theorem c8_reset_pools_counterexample :
    onResetPools true 3 ⟨1, 2, false, [], none⟩ = .ok ⟨3, 0, false, [], none⟩ ∧
    (PoolState.mk 3 0 false [] none).playerPoolCount ≠ 0 := by
  exact ⟨rfl, by decide⟩

/-- C8 amended: `resetPools` writes zero to both counts through
`updateState`; when override is on both persisted counts are zero, but
when override is off the rebalance step sets `playerPoolCount` to the
active participant count and `gmPoolCount` to zero (so both counts are
zero only when the active participant count is zero). -/
theorem c8_reset_pools_amended (a : Int) (s : PoolState) :
    (s.overrideEnabled = true →
      onResetPools true a s = .ok { s with playerPoolCount := 0, gmPoolCount := 0 }) ∧
    (s.overrideEnabled = false → 0 ≤ a →
      onResetPools true a s = .ok { s with playerPoolCount := a, gmPoolCount := 0 }) := by
  constructor
  · intro hov
    rw [onResetPools, updateState_true, applyUpdate_override_true]
    · simp [Delta.apply]
    · simp [Delta.apply, hov]
  · intro hov ha
    rw [onResetPools, updateState_true]
    simp only [applyUpdate, Delta.apply, Option.getD_some, Option.getD_none, hov]
    split_ifs with h1 h2 <;> simp_all [PoolState.mk.injEq]

/-- Witness for C8 amended: with override on, reset from `(2, 3)`
persists `(0, 0)`; with override off and 3 active participants, reset
from `(1, 2)` persists `(3, 0)`. -/
theorem c8_reset_pools_amended_witness :
    onResetPools true 3 ⟨2, 3, true, [], none⟩ = .ok ⟨0, 0, true, [], none⟩ ∧
    onResetPools true 3 ⟨1, 2, false, [], none⟩ = .ok ⟨3, 0, false, [], none⟩ := by
  constructor
  · exact (c8_reset_pools_amended 3 ⟨2, 3, true, [], none⟩).1 rfl
  · exact (c8_reset_pools_amended 3 ⟨1, 2, false, [], none⟩).2 rfl (by decide)

/-- C9 counterexample: a non-authoritative call to `enforceInvariant` in
a state with override on returns the state with no `AuthorityError` —
the authority check of `enforceInvariant` only runs on the rebalancing
write path, so it does not reject non-authoritative callers in all
states. -/
theorem c9_authority_counterexample :
    enforceInvariant false 0 ⟨0, 0, true, [], none⟩ =
      .ok ⟨0, 0, true, [], none⟩ ∧
    (Except.ok (⟨0, 0, true, [], none⟩ : PoolState) ≠
      (.error .authorityError : Except CrucibleError PoolState)) := by
  exact ⟨rfl, by simp⟩

/-- C9 amended: `updateState` rejects every non-authoritative caller
with `AuthorityError` before touching the store; `enforceInvariant`
rejects a non-authoritative caller only when a rebalancing write is
needed (override off and totals mismatching) — when override is on or
the totals already match it returns the current state unchanged with no
error. -/
theorem c9_authority_amended (a : Int) (s : PoolState) (d : Delta) :
    updateState false a s d = .error .authorityError ∧
    (s.overrideEnabled = true → enforceInvariant false a s = .ok s) ∧
    (s.playerPoolCount + s.gmPoolCount = a → enforceInvariant false a s = .ok s) ∧
    (s.overrideEnabled = false → s.playerPoolCount + s.gmPoolCount ≠ a →
      enforceInvariant false a s = .error .authorityError) := by
  refine ⟨rfl, ?_, ?_, ?_⟩
  · intro hov
    simp [enforceInvariant, hov]
  · intro hsum
    simp [enforceInvariant, hsum]
  · intro hov hsum
    simp [enforceInvariant, hov, hsum, updateState]

/-- Witness for C9 amended: a non-GM `updateState` call fails; non-GM
`enforceInvariant` calls succeed with the state unchanged when override
is on or the totals match, and fail only on the write path. -/
theorem c9_authority_amended_witness :
    updateState false 0 ⟨0, 0, false, [], none⟩ {} = .error .authorityError ∧
    enforceInvariant false 0 ⟨4, 1, true, [], none⟩ = .ok ⟨4, 1, true, [], none⟩ ∧
    enforceInvariant false 2 ⟨1, 1, false, [], none⟩ = .ok ⟨1, 1, false, [], none⟩ ∧
    enforceInvariant false 0 ⟨0, 1, false, [], none⟩ = .error .authorityError := by
  refine ⟨?_, ?_, ?_, ?_⟩
  · exact (c9_authority_amended 0 ⟨0, 0, false, [], none⟩ {}).1
  · exact (c9_authority_amended 0 ⟨4, 1, true, [], none⟩ {}).2.1 rfl
  · exact (c9_authority_amended 2 ⟨1, 1, false, [], none⟩ {}).2.2.1 (by decide)
  · exact (c9_authority_amended 0 ⟨0, 1, false, [], none⟩ {}).2.2.2 rfl (by decide)

end Crucible

namespace Crucible

/-- C4 counterexample: after a successful augmentation has drained the
player pool to zero, a second call for the already-consumed message id
is rejected with the insufficient-dice warning, not the
already-augmented one — the empty-pool check runs before the duplicate
check. -/
theorem c4_duplicate_augment_counterexample :
    handleAugmentRequest true 1 (some ⟨"m1", [14], none⟩) true
        ⟨0, 1, true, [], none⟩ ["m1"] "m1" 4 =
      .rejected .augInsufficientDice ∧
    AugmentOutcome.rejected CrucibleError.augInsufficientDice ≠
      .rejected .augAlreadyAugmented := by
  exact ⟨by decide, by decide⟩

/-- C4 amended: once a message id is in `augmentedMessages` no further
call for it can succeed, and no rejected or failed call mutates the
pools; the rejection reports the already-augmented error when the player
pool is non-empty, but the insufficient-dice error when the pool is
empty, because that check runs first. -/
theorem c4_augment_exclusivity_amended (a : Int) (m : Message) (s : PoolState)
    (aug : List String) (mid : String) (die : Int) (hmem : mid ∈ aug) :
    (1 ≤ s.playerPoolCount →
      handleAugmentRequest true a (some m) true s aug mid die =
        .rejected .augAlreadyAugmented) ∧
    (s.playerPoolCount < 1 →
      handleAugmentRequest true a (some m) true s aug mid die =
        .rejected .augInsufficientDice) ∧
    (∀ (g : Bool) (msg : Option Message) (uf : Bool),
      (handleAugmentRequest g a msg uf s aug mid die).isSuccess = false) := by
  refine ⟨?_, ?_, ?_⟩
  · intro hp
    have hlt : ¬ s.playerPoolCount < 1 := by omega
    simp [handleAugmentRequest, hlt, hmem]
  · intro hp
    simp [handleAugmentRequest, hp]
  · intro g msg uf
    cases g
    · simp [handleAugmentRequest, AugmentOutcome.isSuccess]
    · cases msg with
      | none => simp [handleAugmentRequest, AugmentOutcome.isSuccess]
      | some m2 =>
        cases uf
        · simp [handleAugmentRequest, AugmentOutcome.isSuccess]
        · by_cases hp : s.playerPoolCount < 1 <;>
            simp [handleAugmentRequest, hp, hmem, AugmentOutcome.isSuccess]

/-- Witness for C4 amended: with `"m1"` already augmented, a retry from
`(1, 0)` reports already-augmented, a retry from `(0, 1)` reports
insufficient dice, and neither retry is a success. -/
theorem c4_augment_exclusivity_amended_witness :
    handleAugmentRequest true 1 (some ⟨"m1", [14], none⟩) true
        ⟨1, 0, true, [], none⟩ ["m1"] "m1" 4 = .rejected .augAlreadyAugmented ∧
    handleAugmentRequest true 1 (some ⟨"m1", [14], none⟩) true
        ⟨0, 1, true, [], none⟩ ["m1"] "m1" 4 = .rejected .augInsufficientDice ∧
    (handleAugmentRequest true 1 (some ⟨"m1", [14], none⟩) true
        ⟨1, 0, true, [], none⟩ ["m1"] "m1" 4).isSuccess = false := by
  refine ⟨?_, ?_, ?_⟩
  · exact (c4_augment_exclusivity_amended 1 ⟨"m1", [14], none⟩ ⟨1, 0, true, [], none⟩
      ["m1"] "m1" 4 (by decide)).1 (by decide)
  · exact (c4_augment_exclusivity_amended 1 ⟨"m1", [14], none⟩ ⟨0, 1, true, [], none⟩
      ["m1"] "m1" 4 (by decide)).2.1 (by decide)
  · exact (c4_augment_exclusivity_amended 1 ⟨"m1", [14], none⟩ ⟨1, 0, true, [], none⟩
      ["m1"] "m1" 4 (by decide)).2.2 true (some ⟨"m1", [14], none⟩) true

/-- C5 counterexample: a successful augmentation from `(1, 0)` with
override off and 3 active participants persists `(2, 1)` — the player
pool is not decremented by 1, because the rebalance step of
`updateState` overwrites the transfer. -/
theorem c5_augment_transfer_counterexample :
    handleAugmentRequest true 3 (some ⟨"m1", [14], none⟩) true
        ⟨1, 0, false, [], none⟩ [] "m1" 4 =
      .success 4 (some 18) ⟨2, 1, false, [], none⟩ ["m1"] ∧
    (PoolState.mk 2 1 false [] none).playerPoolCount ≠ 1 - 1 := by
  exact ⟨by decide, by decide⟩

/-- C5 amended: a successful authoritative augmentation (player pool
non-empty, id not yet augmented, message and user found) transfers
exactly one die from the player pool to the GM pool and records the id,
provided override is on or the pre-state total equals the active
participant count (otherwise the rebalance step adjusts the counts);
the reported new total is `originalTotal + dieValue` whenever the
original total is resolvable and non-zero (a zero original total is
falsy in the source and suppresses the report). -/
theorem c5_augment_success_amended (a : Int) (m : Message) (s : PoolState)
    (aug : List String) (mid : String) (die t : Int)
    (hp : 1 ≤ s.playerPoolCount) (hmem : mid ∉ aug)
    (hkeep : s.overrideEnabled = true ∨ s.playerPoolCount + s.gmPoolCount = a)
    (ht : extractOriginalTotal m = some t) (ht0 : t ≠ 0) :
    handleAugmentRequest true a (some m) true s aug mid die =
      .success die (some (t + die))
        { s with playerPoolCount := s.playerPoolCount - 1,
                 gmPoolCount := s.gmPoolCount + 1 }
        (mid :: aug) := by
  have hlt : ¬ s.playerPoolCount < 1 := by omega
  have happ : (Delta.apply
      { playerPoolCount := some (s.playerPoolCount - 1),
        gmPoolCount := some (s.gmPoolCount + 1) } s) =
      { s with playerPoolCount := s.playerPoolCount - 1,
               gmPoolCount := s.gmPoolCount + 1 } := by
    simp [Delta.apply]
  have hnew : computeNewTotal (extractOriginalTotal m) die = some (t + die) := by
    rw [ht, computeNewTotal, if_neg ht0]
  simp only [handleAugmentRequest, not_true_eq_false, if_false, if_neg hlt, if_neg hmem,
    hnew, updateState_true]
  rw [applyUpdate_keep, happ]
  rw [happ]
  dsimp only
  rcases hkeep with h2 | h2
  · exact Or.inl h2
  · exact Or.inr (by omega)

/-- Witness for C5 amended, the scenario of the spec: from `(1, 0)` with
one active participant, original total 14 and die 4, the result is die
value 4, new total 18, state `(0, 1)`, and the id recorded. -/
theorem c5_augment_success_amended_witness :
    handleAugmentRequest true 1 (some ⟨"m1", [14], none⟩) true
        ⟨1, 0, false, [], none⟩ [] "m1" 4 =
      .success 4 (some 18) ⟨0, 1, false, [], none⟩ ["m1"] := by
  exact c5_augment_success_amended 1 ⟨"m1", [14], none⟩ ⟨1, 0, false, [], none⟩
    [] "m1" 4 14 (by decide) (by decide) (Or.inr (by decide)) (by decide) (by decide)

/-- C6 counterexample: with override off and 2 active participants, a
valid transfer of 2 dice from `(3, 1)` to the GM pool persists `(0, 2)`
instead of the exact transfer `(1, 3)` — the rebalance step of
`updateState` overwrites the moved counts. -/
theorem c6_move_dice_counterexample :
    moveDiceSubmit true 2 ⟨3, 1, false, [], none⟩ .playerToGm 2 =
      .ok ⟨0, 2, false, [], none⟩ ∧
    (PoolState.mk 0 2 false [] none).gmPoolCount ≠ 1 + 2 := by
  exact ⟨rfl, by decide⟩

/-- C6 amended: a transfer amount exceeding the source pool fails with
the insufficient-dice `ValidationError` before any write (pool counts
unchanged); a positive amount within the source pool is applied through
`updateState` with override unchanged, and equals the exact transfer
whenever override is on or the pre-state total equals the active
participant count (otherwise the rebalance step adjusts the persisted
counts). -/
theorem c6_move_dice_amended (a amount : Int) (s : PoolState) (hamt : 1 ≤ amount) :
    (s.playerPoolCount < amount →
      moveDiceSubmit true a s .playerToGm amount = .error .moveInsufficientDice) ∧
    (s.gmPoolCount < amount →
      moveDiceSubmit true a s .gmToPlayer amount = .error .moveInsufficientDice) ∧
    (amount ≤ s.playerPoolCount →
      (s.overrideEnabled = true ∨ s.playerPoolCount + s.gmPoolCount = a) →
      moveDiceSubmit true a s .playerToGm amount =
        .ok { s with playerPoolCount := s.playerPoolCount - amount,
                     gmPoolCount := s.gmPoolCount + amount }) ∧
    (amount ≤ s.gmPoolCount →
      (s.overrideEnabled = true ∨ s.playerPoolCount + s.gmPoolCount = a) →
      moveDiceSubmit true a s .gmToPlayer amount =
        .ok { s with gmPoolCount := s.gmPoolCount - amount,
                     playerPoolCount := s.playerPoolCount + amount }) := by
  have hlt : ¬ amount < 1 := by omega
  refine ⟨?_, ?_, ?_, ?_⟩
  · intro h
    simp [moveDiceSubmit, hlt, h]
  · intro h
    simp [moveDiceSubmit, hlt, h]
  · intro h hkeep
    have hsrc : ¬ s.playerPoolCount < amount := by omega
    have happ : (Delta.apply
        { playerPoolCount := some (s.playerPoolCount - amount),
          gmPoolCount := some (s.gmPoolCount + amount) } s) =
        { s with playerPoolCount := s.playerPoolCount - amount,
                 gmPoolCount := s.gmPoolCount + amount } := by
      simp [Delta.apply]
    simp only [moveDiceSubmit, if_neg hlt, if_neg hsrc, updateState_true]
    rw [applyUpdate_keep, happ]
    rw [happ]
    dsimp only
    rcases hkeep with h2 | h2
    · exact Or.inl h2
    · exact Or.inr (by omega)
  · intro h hkeep
    have hsrc : ¬ s.gmPoolCount < amount := by omega
    have happ : (Delta.apply
        { gmPoolCount := some (s.gmPoolCount - amount),
          playerPoolCount := some (s.playerPoolCount + amount) } s) =
        { s with gmPoolCount := s.gmPoolCount - amount,
                 playerPoolCount := s.playerPoolCount + amount } := by
      simp [Delta.apply]
    simp only [moveDiceSubmit, if_neg hlt, if_neg hsrc, updateState_true]
    rw [applyUpdate_keep, happ]
    rw [happ]
    dsimp only
    rcases hkeep with h2 | h2
    · exact Or.inl h2
    · exact Or.inr (by omega)

/-- Witness for C6 amended, the scenario of the spec with 4 active
participants: moving 2 toward the GM pool from `(3, 1)` yields `(1, 3)`;
moving 5 from the same start fails with the validation error; the
GM-to-player direction behaves symmetrically. -/
theorem c6_move_dice_amended_witness :
    moveDiceSubmit true 4 ⟨3, 1, false, [], none⟩ .playerToGm 5 =
      .error .moveInsufficientDice ∧
    moveDiceSubmit true 4 ⟨3, 1, false, [], none⟩ .gmToPlayer 2 =
      .error .moveInsufficientDice ∧
    moveDiceSubmit true 4 ⟨3, 1, false, [], none⟩ .playerToGm 2 =
      .ok ⟨1, 3, false, [], none⟩ ∧
    moveDiceSubmit true 4 ⟨1, 3, false, [], none⟩ .gmToPlayer 2 =
      .ok ⟨3, 1, false, [], none⟩ := by
  refine ⟨?_, ?_, ?_, ?_⟩
  · exact (c6_move_dice_amended 4 5 ⟨3, 1, false, [], none⟩ (by decide)).1 (by decide)
  · exact (c6_move_dice_amended 4 2 ⟨3, 1, false, [], none⟩ (by decide)).2.1 (by decide)
  · exact (c6_move_dice_amended 4 2 ⟨3, 1, false, [], none⟩ (by decide)).2.2.1
      (by decide) (Or.inr (by decide))
  · exact (c6_move_dice_amended 4 2 ⟨1, 3, false, [], none⟩ (by decide)).2.2.2
      (by decide) (Or.inr (by decide))

end Crucible
